import Mathlib

/-!
Shallow embedding of `lalrpop/src/grammar/repr.rs`: the compiled (normalized)
intermediate representation of a grammar — the type algebra `TypeRepr`, the
`Types` registry, the `Grammar` aggregate, the `ActionFn` handle and the
`Algorithm` selector — together with theorems settling the specification
claims about them.

Modelling conventions:
- Rust `InternedString` is modelled by its string data (`String`); the
  interner only provides identity, and `Algorithm::from_str` reads the data
  back through `intern::read`.
- Rust `Map` (from `util`) is modelled as an association list with
  `List.lookup`; `insert` on a fresh key prepends.
- A Rust `panic!`/failed `assert!`/indexing failure is modelled by `none` of
  an `Option`-returning function.
- `x as u32` is modelled as `% 2 ^ 32` on `Nat`.
-/

namespace LalrpopRepr

/-- Interned strings, modelled by their string data. -/
abbrev InternedString := String

/-- Modelled from the spec: `TerminalString` (from `parse_tree`, not under
`src/`) is an interned terminal name; only its identity matters here. -/
abbrev TerminalString := String

/-- Modelled from the spec: `NonterminalString` (from `parse_tree`, not under
`src/`) is an interned nonterminal name; only its identity matters here. -/
abbrev NonterminalString := String

/-- Modelled from the spec: a `Path` (from `parse_tree`, not under `src/`) is
a sequence of path segments (interned identifiers). -/
structure Path where
  ids : List InternedString
deriving DecidableEq

/-- Modelled from the spec: `Path::as_id` yields the identifier exactly when
the path denotes a single bare identifier (no further path segments). -/
def Path.as_id (p : Path) : Option InternedString :=
  match p.ids with
  | [id] => some id
  | _ => none

/-- Modelled from the spec: rendering of a `Path` joins its segments. The
claims treat the path rendering as atomic. -/
def Path.display (p : Path) : String :=
  String.intercalate "::" p.ids

/-- Modelled from the spec: `TypeParameter` (from `parse_tree`, not under
`src/`) — a lifetime parameter or a (candidate) type parameter identifier. -/
inductive TypeParameter where
  | Lifetime : InternedString → TypeParameter
  | Id : InternedString → TypeParameter
deriving DecidableEq

/-- `TypeRepr` from `repr.rs`: tuples, nominal types (the `NominalTypeRepr`
payload `path`/`types` is inlined as two constructor arguments), lifetimes,
and references with optional lifetime and mutability. -/
inductive TypeRepr where
  | Tuple : List TypeRepr → TypeRepr
  | Nominal : Path → List TypeRepr → TypeRepr
  | Lifetime : InternedString → TypeRepr
  | Ref : Option InternedString → Bool → TypeRepr → TypeRepr

mutual

/-- `TypeRepr::referenced`: the type parameters (or potential type
parameters) referenced by this type, in traversal order. -/
def TypeRepr.referenced : TypeRepr → List TypeParameter
  | .Tuple tys => TypeRepr.referencedList tys
  | .Nominal path tys =>
      TypeRepr.referencedList tys ++
        (match path.as_id with
         | some id => [TypeParameter.Id id]
         | none => [])
  | .Lifetime l => [TypeParameter.Lifetime l]
  | .Ref lifetime _ referent =>
      lifetime.toList.map TypeParameter.Lifetime ++ referent.referenced

/-- The `flat_map` over a list of types used by `referenced` for tuple
elements and nominal type arguments. -/
def TypeRepr.referencedList : List TypeRepr → List TypeParameter
  | [] => []
  | t :: ts => t.referenced ++ TypeRepr.referencedList ts

end

theorem referencedList_eq_flatten (ts : List TypeRepr) :
    TypeRepr.referencedList ts = (ts.map TypeRepr.referenced).flatten := by
  induction ts with
  | nil => simp [TypeRepr.referencedList]
  | cons t ts ih => simp [TypeRepr.referencedList, ih]

/-- Modelled from the spec: `util::Sep(sep, items)` renders the items
separated by `sep` (no leading or trailing separator). -/
def sepBy (sep : String) : List String → String
  | [] => ""
  | [x] => x
  | x :: xs => x ++ sep ++ sepBy sep xs

mutual

/-- `Display for TypeRepr` from `repr.rs`. The `Nominal` case inlines
`Display for NominalTypeRepr`: the path alone when the type-argument list is
empty, otherwise the path followed by an angle-bracketed argument list. -/
def TypeRepr.display : TypeRepr → String
  | .Tuple types => "(" ++ TypeRepr.displayList types ++ ")"
  | .Nominal path types =>
      if types.length = 0 then path.display
      else path.display ++ "<" ++ TypeRepr.displayList types ++ ">"
  | .Lifetime id => id
  | .Ref none false referent => "&" ++ referent.display
  | .Ref (some l) false referent => "&" ++ l ++ " " ++ referent.display
  | .Ref none true referent => "&mut " ++ referent.display
  | .Ref (some l) true referent => "&" ++ l ++ " mut " ++ referent.display

/-- `Sep(", ", types)` specialised to rendering a list of types. -/
def TypeRepr.displayList : List TypeRepr → String
  | [] => ""
  | [t] => t.display
  | t :: ts => t.display ++ ", " ++ TypeRepr.displayList ts

end

theorem displayList_eq_sepBy (ts : List TypeRepr) :
    TypeRepr.displayList ts = sepBy ", " (ts.map TypeRepr.display) := by
  induction ts with
  | nil => simp [TypeRepr.displayList, sepBy]
  | cons t ts ih =>
    cases ts with
    | nil => simp [TypeRepr.displayList, sepBy]
    | cons t2 ts2 =>
      rw [TypeRepr.displayList, List.map, List.map, sepBy, ← List.map, ← ih]
      all_goals simp

/-- The `Map` type from `util`, modelled as an association list. -/
abbrev Map (K V : Type) := List (K × V)

/-- `Types` from `repr.rs`: the grammar-wide token type, optional location
and error types, and the per-terminal / per-nonterminal type registrations. -/
structure Types where
  terminal_token_type : TypeRepr
  terminal_loc_type : Option TypeRepr
  error_type : Option TypeRepr
  terminal_types : Map TerminalString TypeRepr
  nonterminal_types : Map NonterminalString TypeRepr

/-- `Types::new`: fresh registry with empty terminal/nonterminal maps. -/
def Types.new (terminal_loc_type : Option TypeRepr) (error_type : Option TypeRepr)
    (terminal_token_type : TypeRepr) : Types :=
  ⟨terminal_token_type, terminal_loc_type, error_type, [], []⟩

/-- `Types::add_type`: `assert!(self.nonterminal_types.insert(nt_id, ty).is_none())`.
The failed assertion (key already present) is modelled by `none`. -/
def Types.add_type (t : Types) (nt_id : NonterminalString) (ty : TypeRepr) :
    Option Types :=
  match t.nonterminal_types.lookup nt_id with
  | some _ => none
  | none =>
      some ⟨t.terminal_token_type, t.terminal_loc_type, t.error_type,
            t.terminal_types, (nt_id, ty) :: t.nonterminal_types⟩

/-- `Types::add_term_type`: `assert!(self.terminal_types.insert(term, ty).is_none())`.
The failed assertion (key already present) is modelled by `none`. -/
def Types.add_term_type (t : Types) (term : TerminalString) (ty : TypeRepr) :
    Option Types :=
  match t.terminal_types.lookup term with
  | some _ => none
  | none =>
      some ⟨t.terminal_token_type, t.terminal_loc_type, t.error_type,
            (term, ty) :: t.terminal_types, t.nonterminal_types⟩

/-- `Types::terminal_loc_type()` (method): the registered location type, or
the zero-element tuple. Named `terminalLocType` because the structure field
already carries the source name. -/
def Types.terminalLocType (t : Types) : TypeRepr :=
  t.terminal_loc_type.getD (TypeRepr.Tuple [])

/-- `Types::error_type()` (method): the registered error type, or the
zero-element tuple. Named `errorType` because the structure field already
carries the source name. -/
def Types.errorType (t : Types) : TypeRepr :=
  t.error_type.getD (TypeRepr.Tuple [])

/-- `Types::terminal_type`: the registered type if present, otherwise the
grammar-wide token type. -/
def Types.terminal_type (t : Types) (id : TerminalString) : TypeRepr :=
  (t.terminal_types.lookup id).getD t.terminal_token_type

/-- `Types::lookup_nonterminal_type`: optional lookup. -/
def Types.lookup_nonterminal_type (t : Types) (id : NonterminalString) :
    Option TypeRepr :=
  t.nonterminal_types.lookup id

/-- `Types::nonterminal_type`: `&self.nonterminal_types[&id]` — a direct
indexing that panics when the key is absent; the panic is modelled by
`none`. -/
def Types.nonterminal_type (t : Types) (id : NonterminalString) :
    Option TypeRepr :=
  t.nonterminal_types.lookup id

/-- `Types::triple_type`: the tuple `(location, token, location)`. -/
def Types.triple_type (t : Types) : TypeRepr :=
  TypeRepr.Tuple [t.terminalLocType, t.terminal_token_type, t.terminalLocType]

/-- `ActionFn` from `repr.rs`: a `u32` index, modelled as a `Nat` kept below
`2 ^ 32` by `ActionFn.new`. -/
structure ActionFn where
  val : Nat
deriving DecidableEq

/-- `ActionFn::new(x)`: stores `x as u32`, i.e. `x` truncated mod `2 ^ 32`. -/
def ActionFn.new (x : Nat) : ActionFn :=
  ⟨x % 2 ^ 32⟩

/-- `ActionFn::index()`: reads the stored index back (`self.0 as usize`). -/
def ActionFn.index (f : ActionFn) : Nat :=
  f.val

/-- `ActionKind` from `repr.rs`. -/
inductive ActionKind where
  | Call : ActionFn → ActionKind
  | TryCall : ActionFn → ActionKind

/-- Modelled from the spec: `Span` (from `parse_tree`, not under `src/`) is a
pair of source offsets. -/
structure Span where
  lo : Nat
  hi : Nat

/-- `Symbol` from `repr.rs`. -/
inductive Symbol where
  | Nonterminal : NonterminalString → Symbol
  | Terminal : TerminalString → Symbol

/-- `ActionFnDefn` from `repr.rs`. -/
structure ActionFnDefn where
  arg_patterns : List InternedString
  arg_types : List TypeRepr
  ret_type : TypeRepr
  fallible : Bool
  code : String

/-- `Production` from `repr.rs`. -/
structure Production where
  nonterminal : NonterminalString
  symbols : List Symbol
  action : ActionKind
  span : Span

/-- Modelled from the spec: `Annotation` (from `parse_tree`, not under
`src/`); its structure is out of scope for the claims. -/
inductive Annotation where
  | mk : Annotation

/-- `NonterminalData` from `repr.rs`. -/
structure NonterminalData where
  name : NonterminalString
  span : Span
  annotations : List Annotation
  productions : List Production

/-- Modelled from the spec: `InternToken` (from `parse_tree`, not under
`src/`), the optional built-in tokenizer descriptor; out of scope. -/
inductive InternToken where
  | mk : InternToken

/-- Modelled from the spec: `Pattern<T>` (from `grammar::pattern`, not under
`src/`), a terminal's lexical pattern; only its identity matters here. -/
inductive Pattern (T : Type) where
  | mk : T → Pattern T

/-- `Algorithm` from `repr.rs`. -/
inductive Algorithm where
  | LR1
  | LALR1
deriving DecidableEq

/-- `Parameter` from `repr.rs`. -/
structure Parameter where
  name : InternedString
  ty : TypeRepr

/-- `Grammar` from `repr.rs`. The Rust field `prefix` is a Lean keyword and
is named `prefixStr` here. -/
structure Grammar where
  prefixStr : String
  algorithm : Algorithm
  start_nonterminals : Map NonterminalString NonterminalString
  uses : List String
  type_parameters : List TypeParameter
  parameters : List Parameter
  where_clauses : List String
  intern_token : Option InternToken
  action_fn_defns : List ActionFnDefn
  nonterminals : Map NonterminalString NonterminalData
  token_span : Span
  conversions : Map TerminalString (Pattern TypeRepr)
  types : Types

/-- `Grammar::pattern`: `&self.conversions[&t]` — a direct indexing that
panics when the terminal was never registered; the panic is modelled by
`none`. -/
def Grammar.pattern (g : Grammar) (t : TerminalString) :
    Option (Pattern TypeRepr) :=
  g.conversions.lookup t

/-- `Grammar::productions_for`: the stored production list, or the empty
sequence when the nonterminal is absent. -/
def Grammar.productions_for (g : Grammar) (nonterminal : NonterminalString) :
    List Production :=
  match g.nonterminals.lookup nonterminal with
  | some v => v.productions
  | none => []

/-- `Algorithm::from_str`: the match on the interned string's data, with the
or-patterns written as disjunctions. -/
def Algorithm.from_str (s : InternedString) : Option Algorithm :=
  if s = "LR" ∨ s = "LR(1)" then some Algorithm.LR1
  else if s = "LALR" ∨ s = "LALR(1)" then some Algorithm.LALR1
  else none

/-- Claim C1: `referenced` is computed by the structural rules — a tuple
yields the concatenation of `referenced` over its elements in element order;
a nominal type yields the concatenation over its type arguments followed by
`TypeParameter.Id id` exactly when the path is a single bare identifier `id`;
a lifetime yields the corresponding singleton; a reference yields its
lifetime (if present) followed by `referenced` of the referent. In
particular, `referenced` of `Ref(some "'a", mutable, Nominal(Foo, []))` is
`[Lifetime "'a", Id "Foo"]`. -/
theorem referenced_structural_rules :
    (∀ ts, (TypeRepr.Tuple ts).referenced = (ts.map TypeRepr.referenced).flatten) ∧
    (∀ path args, (TypeRepr.Nominal path args).referenced =
        (args.map TypeRepr.referenced).flatten ++
          path.as_id.toList.map TypeParameter.Id) ∧
    (∀ l, (TypeRepr.Lifetime l).referenced = [TypeParameter.Lifetime l]) ∧
    (∀ lt m r, (TypeRepr.Ref lt m r).referenced =
        lt.toList.map TypeParameter.Lifetime ++ r.referenced) ∧
    (TypeRepr.Ref (some "'a") true (TypeRepr.Nominal ⟨["Foo"]⟩ [])).referenced =
      [TypeParameter.Lifetime "'a", TypeParameter.Id "Foo"] := by
  refine ⟨?_, ?_, ?_, ?_, ?_⟩
  · intro ts
    rw [TypeRepr.referenced, referencedList_eq_flatten]
  · intro path args
    rw [TypeRepr.referenced, referencedList_eq_flatten]
    cases h : path.as_id <;> simp
  · intro l
    rw [TypeRepr.referenced]
  · intro lt m r
    rw [TypeRepr.referenced]
  · simp [TypeRepr.referenced, TypeRepr.referencedList, Path.as_id]

/-- Claim C5: `Algorithm.from_str` maps exactly (case-sensitively) the
strings LR and LR(1) to LR1, LALR and LALR(1) to LALR1, and every other
string to no match. -/
theorem from_str_aliases :
    Algorithm.from_str "LR" = some Algorithm.LR1 ∧
    Algorithm.from_str "LR(1)" = some Algorithm.LR1 ∧
    Algorithm.from_str "LALR" = some Algorithm.LALR1 ∧
    Algorithm.from_str "LALR(1)" = some Algorithm.LALR1 ∧
    ∀ s : InternedString, s ≠ "LR" → s ≠ "LR(1)" → s ≠ "LALR" → s ≠ "LALR(1)" →
      Algorithm.from_str s = none := by
  refine ⟨by decide, by decide, by decide, by decide, ?_⟩
  intro s h1 h2 h3 h4
  simp [Algorithm.from_str, h1, h2, h3, h4]

/-- Witness for C5 at the concrete unmatched input GLR. -/
theorem from_str_aliases_witness : Algorithm.from_str "GLR" = none :=
  from_str_aliases.2.2.2.2 "GLR" (by decide) (by decide) (by decide) (by decide)

/-- Claim C8: for every index below the handle's representable range
(`2 ^ 32`, the `u32` payload), `ActionFn.new` followed by `index` round-trips
the index. -/
theorem actionfn_index_roundtrip (x : Nat) (h : x < 2 ^ 32) :
    (ActionFn.new x).index = x := by
  simp [ActionFn.new, ActionFn.index]
  omega

/-- Witness for C8 at the concrete index 12345. -/
theorem actionfn_index_roundtrip_witness : (ActionFn.new 12345).index = 12345 :=
  actionfn_index_roundtrip 12345 (by norm_num)

/-- Claim C10: `ActionFn.new` accepts every index and never fails; it stores
the index truncated to 32 bits, so `index` returns the argument mod `2 ^ 32`,
and for arguments at or above `2 ^ 32` the round-trip no longer returns the
argument. -/
theorem actionfn_new_truncates :
    (∀ x : Nat, (ActionFn.new x).index = x % 2 ^ 32) ∧
    (∀ x : Nat, 2 ^ 32 ≤ x → (ActionFn.new x).index ≠ x) := by
  constructor
  · intro x
    rfl
  · intro x hx h
    have h1 : x % 2 ^ 32 < 2 ^ 32 := Nat.mod_lt _ (by norm_num)
    simp [ActionFn.new, ActionFn.index] at h
    omega

/-- Witness for C10 at the concrete out-of-range index `2 ^ 32 + 5`. -/
theorem actionfn_new_truncates_witness :
    (ActionFn.new (2 ^ 32 + 5)).index ≠ 2 ^ 32 + 5 :=
  actionfn_new_truncates.2 (2 ^ 32 + 5) (by norm_num)

/-- Claim C2: registering a type twice for the same key is a fatal invariant
violation (modelled by `none`) rather than a silent overwrite, and a first
registration for a fresh key succeeds and associates exactly that type with
the key — for both `add_type` (nonterminals) and `add_term_type`
(terminals). -/
theorem types_register_once :
    (∀ (t : Types) (nt : NonterminalString) (ty : TypeRepr),
        t.nonterminal_types.lookup nt = none →
        ∃ t', t.add_type nt ty = some t' ∧
          t'.nonterminal_types.lookup nt = some ty) ∧
    (∀ (t : Types) (nt : NonterminalString) (ty : TypeRepr),
        (t.nonterminal_types.lookup nt).isSome → t.add_type nt ty = none) ∧
    (∀ (t : Types) (term : TerminalString) (ty : TypeRepr),
        t.terminal_types.lookup term = none →
        ∃ t', t.add_term_type term ty = some t' ∧
          t'.terminal_types.lookup term = some ty) ∧
    (∀ (t : Types) (term : TerminalString) (ty : TypeRepr),
        (t.terminal_types.lookup term).isSome → t.add_term_type term ty = none) := by
  refine ⟨?_, ?_, ?_, ?_⟩
  · intro t nt ty h
    refine ⟨⟨t.terminal_token_type, t.terminal_loc_type, t.error_type,
             t.terminal_types, (nt, ty) :: t.nonterminal_types⟩, ?_, ?_⟩
    · simp [Types.add_type, h]
    · simp [List.lookup]
  · intro t nt ty h
    obtain ⟨v, hv⟩ := Option.isSome_iff_exists.mp h
    simp [Types.add_type, hv]
  · intro t term ty h
    refine ⟨⟨t.terminal_token_type, t.terminal_loc_type, t.error_type,
             (term, ty) :: t.terminal_types, t.nonterminal_types⟩, ?_, ?_⟩
    · simp [Types.add_term_type, h]
    · simp [List.lookup]
  · intro t term ty h
    obtain ⟨v, hv⟩ := Option.isSome_iff_exists.mp h
    simp [Types.add_term_type, hv]

/-- Witness for C2: re-registering the already-registered nonterminal and
terminal keys aborts (yields `none`). -/
theorem types_register_once_witness :
    (Types.mk (TypeRepr.Tuple []) none none []
        [("Expr", TypeRepr.Lifetime "'x")]).add_type "Expr" (TypeRepr.Tuple [])
      = none ∧
    (Types.mk (TypeRepr.Tuple []) none none [("NUM", TypeRepr.Lifetime "'x")]
        []).add_term_type "NUM" (TypeRepr.Tuple []) = none :=
  ⟨types_register_once.2.1 _ "Expr" _ (by decide),
   types_register_once.2.2.2 _ "NUM" _ (by decide)⟩

/-- Claim C3: `terminal_type` returns the registered type when the
terminal was registered via `add_term_type`, and falls back to the token
type when it was never registered; the lookup is total. -/
theorem terminal_type_fallback :
    (∀ (t : Types) (x : TerminalString) (ty : TypeRepr),
        t.terminal_types.lookup x = some ty → t.terminal_type x = ty) ∧
    (∀ (t : Types) (x : TerminalString),
        t.terminal_types.lookup x = none →
        t.terminal_type x = t.terminal_token_type) := by
  constructor
  · intro t x ty h
    simp [Types.terminal_type, h]
  · intro t x h
    simp [Types.terminal_type, h]

/-- Witness for C3: an unregistered terminal falls back to the token type,
and a registered one returns its registered type. -/
theorem terminal_type_fallback_witness :
    (Types.new none none (TypeRepr.Lifetime "'tok")).terminal_type "ID" =
      TypeRepr.Lifetime "'tok" ∧
    (Types.mk (TypeRepr.Lifetime "'tok") none none
        [("NUM", TypeRepr.Tuple [])] []).terminal_type "NUM" =
      TypeRepr.Tuple [] :=
  ⟨terminal_type_fallback.2 _ "ID" rfl,
   terminal_type_fallback.1 _ "NUM" _ rfl⟩

/-- Claim C7: `terminalLocType` and `errorType` return the registered type
when one was supplied at construction and the zero-element tuple otherwise;
`triple_type` is the 3-tuple `(L, TOK, L)` with `L` the location type; and
after `Types.new none none TOK` the location type is the empty tuple and the
triple is `((), TOK, ())`. -/
theorem loc_error_triple_types :
    (∀ (t : Types) (ty : TypeRepr),
        t.terminal_loc_type = some ty → t.terminalLocType = ty) ∧
    (∀ t : Types, t.terminal_loc_type = none →
        t.terminalLocType = TypeRepr.Tuple []) ∧
    (∀ (t : Types) (ty : TypeRepr), t.error_type = some ty → t.errorType = ty) ∧
    (∀ t : Types, t.error_type = none → t.errorType = TypeRepr.Tuple []) ∧
    (∀ t : Types, t.triple_type =
        TypeRepr.Tuple [t.terminalLocType, t.terminal_token_type,
                        t.terminalLocType]) ∧
    (∀ tok : TypeRepr,
        (Types.new none none tok).terminalLocType = TypeRepr.Tuple [] ∧
        (Types.new none none tok).triple_type =
          TypeRepr.Tuple [TypeRepr.Tuple [], tok, TypeRepr.Tuple []]) := by
  refine ⟨?_, ?_, ?_, ?_, ?_, ?_⟩
  · intro t ty h
    simp [Types.terminalLocType, h]
  · intro t h
    simp [Types.terminalLocType, h]
  · intro t ty h
    simp [Types.errorType, h]
  · intro t h
    simp [Types.errorType, h]
  · intro t
    rfl
  · intro tok
    exact ⟨rfl, rfl⟩

/-- Witness for C7: a registry constructed with an explicit location type
returns it, and one constructed without returns the empty tuple. -/
theorem loc_error_triple_types_witness :
    (Types.new (some (TypeRepr.Lifetime "'loc")) none
        (TypeRepr.Tuple [])).terminalLocType = TypeRepr.Lifetime "'loc" ∧
    (Types.new none (some (TypeRepr.Lifetime "'err"))
        (TypeRepr.Tuple [])).errorType = TypeRepr.Lifetime "'err" ∧
    (Types.new none none (TypeRepr.Lifetime "'t")).terminalLocType =
      TypeRepr.Tuple [] :=
  ⟨loc_error_triple_types.1 _ _ rfl,
   loc_error_triple_types.2.2.1 _ _ rfl,
   loc_error_triple_types.2.1 _ rfl⟩

/-- A concrete production used to instantiate the `Grammar` lookups. -/
def sampleProduction : Production :=
  ⟨"Expr", [Symbol.Terminal "NUM"], ActionKind.Call (ActionFn.new 0), ⟨0, 1⟩⟩

/-- A concrete `Grammar` with one nonterminal and one conversion, used to
instantiate the lookup theorems. -/
def sampleGrammar : Grammar :=
  ⟨"__", Algorithm.LR1, [("Expr", "Expr1")], [], [], [], [], none, [],
   [("Expr", ⟨"Expr", ⟨0, 3⟩, [], [sampleProduction]⟩)], ⟨0, 0⟩,
   [("NUM", Pattern.mk (TypeRepr.Tuple []))],
   Types.new none none (TypeRepr.Tuple [])⟩

/-- Claim C4: `productions_for` returns the stored production sequence for a
registered nonterminal and the empty sequence (without failing) for an
absent one. -/
theorem productions_for_total :
    (∀ (g : Grammar) (n : NonterminalString) (d : NonterminalData),
        g.nonterminals.lookup n = some d → g.productions_for n = d.productions) ∧
    (∀ (g : Grammar) (n : NonterminalString),
        g.nonterminals.lookup n = none → g.productions_for n = []) := by
  constructor
  · intro g n d h
    simp [Grammar.productions_for, h]
  · intro g n h
    simp [Grammar.productions_for, h]

/-- Witness for C4 on the concrete grammar: a present key yields its stored
list, an absent key yields the empty list. -/
theorem productions_for_total_witness :
    sampleGrammar.productions_for "Expr" = [sampleProduction] ∧
    sampleGrammar.productions_for "Missing" = [] :=
  ⟨productions_for_total.1 sampleGrammar "Expr" _ rfl,
   productions_for_total.2 sampleGrammar "Missing" rfl⟩

/-- Claim C9: `Grammar.pattern` and `Types.nonterminal_type` are direct
lookups with a registration precondition: a registered key returns the
stored pattern/type, and an unregistered key aborts (modelled by `none`)
rather than returning a value. -/
theorem pattern_nonterminal_type_lookup :
    (∀ (g : Grammar) (t : TerminalString) (p : Pattern TypeRepr),
        g.conversions.lookup t = some p → g.pattern t = some p) ∧
    (∀ (g : Grammar) (t : TerminalString),
        g.conversions.lookup t = none → g.pattern t = none) ∧
    (∀ (ty : Types) (n : NonterminalString) (r : TypeRepr),
        ty.nonterminal_types.lookup n = some r → ty.nonterminal_type n = some r) ∧
    (∀ (ty : Types) (n : NonterminalString),
        ty.nonterminal_types.lookup n = none → ty.nonterminal_type n = none) := by
  exact ⟨fun g t p h => h, fun g t h => h, fun ty n r h => h, fun ty n h => h⟩

/-- Witness for C9 on concrete values: a registered terminal returns its
pattern, an unregistered terminal aborts, an unregistered nonterminal type
lookup aborts. -/
theorem pattern_nonterminal_type_lookup_witness :
    sampleGrammar.pattern "NUM" = some (Pattern.mk (TypeRepr.Tuple [])) ∧
    sampleGrammar.pattern "STR" = none ∧
    (Types.new none none (TypeRepr.Tuple [])).nonterminal_type "Expr" = none :=
  ⟨pattern_nonterminal_type_lookup.1 sampleGrammar "NUM" _ rfl,
   pattern_nonterminal_type_lookup.2.1 sampleGrammar "STR" rfl,
   pattern_nonterminal_type_lookup.2.2.2 _ "Expr" rfl⟩

/-- Claim C6: the rendering of a `TypeRepr` is — a tuple as a parenthesized
comma-separated list of the renderings of its elements; a reference as an
ampersand, then the lifetime if present, then `mut` if mutable, then the
rendering of the referent; a lifetime as its name; a nominal type as its
path alone when its argument list is empty, and as the path followed by an
angle-bracketed comma-separated argument list when non-empty. -/
theorem display_rendering :
    (∀ ts, (TypeRepr.Tuple ts).display =
        "(" ++ sepBy ", " (ts.map TypeRepr.display) ++ ")") ∧
    (∀ path : Path, (TypeRepr.Nominal path []).display = path.display) ∧
    (∀ (path : Path) args, args ≠ [] → (TypeRepr.Nominal path args).display =
        path.display ++ "<" ++ sepBy ", " (args.map TypeRepr.display) ++ ">") ∧
    (∀ l, (TypeRepr.Lifetime l).display = l) ∧
    (∀ r, (TypeRepr.Ref none false r).display = "&" ++ r.display) ∧
    (∀ l r, (TypeRepr.Ref (some l) false r).display =
        "&" ++ l ++ " " ++ r.display) ∧
    (∀ r, (TypeRepr.Ref none true r).display = "&mut " ++ r.display) ∧
    (∀ l r, (TypeRepr.Ref (some l) true r).display =
        "&" ++ l ++ " mut " ++ r.display) := by
  refine ⟨?_, ?_, ?_, ?_, ?_, ?_, ?_, ?_⟩
  · intro ts
    rw [TypeRepr.display, displayList_eq_sepBy]
  · intro path
    rw [TypeRepr.display]
    simp
  · intro path args h
    rw [TypeRepr.display, displayList_eq_sepBy]
    simp [h]
  · intro l
    rw [TypeRepr.display]
  · intro r
    rw [TypeRepr.display]
  · intro l r
    rw [TypeRepr.display]
  · intro r
    rw [TypeRepr.display]
  · intro l r
    rw [TypeRepr.display]

/-- Witness for C6: a nominal type with a non-empty argument list renders
with angle brackets. -/
theorem display_rendering_witness :
    (TypeRepr.Nominal ⟨["Vec"]⟩ [TypeRepr.Tuple []]).display = "Vec<()>" := by
  rw [display_rendering.2.2.1 ⟨["Vec"]⟩ [TypeRepr.Tuple []] (by simp)]
  rw [List.map, display_rendering.1 []]
  rfl

end LalrpopRepr
